import Mathlib

/-!
Verification of the trailmet experiment notebooks.

The repository consists of three notebook scripts (Factor Transfer
distillation, ChipNet pruning, BitSplit quantization).  This file gives a
shallow embedding of the notebook code: the configuration-processing cell
of the BitSplit notebook is embedded as a function over Python-style
dictionaries, the statement sequence of each notebook is transcribed into a
small operation language, and the test-set evaluation arithmetic of the
Factor Transfer notebook (softmax followed by argmax) is embedded over the
reals.
-/

namespace Trailmet

/-! ### Python values and dictionaries

The BitSplit notebook manipulates the mapping returned by
`yaml.safe_load` with plain dictionary operations.  Keys of these
dictionaries are strings or numbers (the keys of the `W_ARGS` table are
float budgets such as `0.125`); numbers are modelled as rationals. -/

/-- A dictionary key: a string or a number. -/
inductive PyKey where
  | s (s : String)
  | q (q : Rat)
  deriving DecidableEq, Repr

/-- A YAML/Python value: number, string, boolean, or nested dictionary. -/
inductive PyVal where
  | num (q : Rat)
  | str (s : String)
  | bool (b : Bool)
  | dict (entries : List (PyKey × PyVal))

/-- A Python dictionary, as an association list in insertion order. -/
abbrev PyDict := List (PyKey × PyVal)

/-- First-match lookup: `d[k]` (Python dictionaries have unique keys, so
the first match is the binding). -/
def lookup : PyDict → PyKey → Option PyVal
  | [], _ => none
  | (k1, v) :: t, k => if k1 = k then some v else lookup t k

/-- `ofirst a b` is `a` when `a` is `some`, else `b`. -/
def ofirst {α : Type} : Option α → Option α → Option α
  | some x, _ => some x
  | none, b => b

/-- Last-match lookup, describing which binding survives iteration order
in `dict.update` (later items win). -/
def rlookup : PyDict → PyKey → Option PyVal
  | [], _ => none
  | (k1, v) :: t, k => ofirst (rlookup t k) (if k1 = k then some v else none)

/-- Whether the dictionary has the key: Python `k in d`. -/
def hasKey (d : PyDict) (k : PyKey) : Bool :=
  (lookup d k).isSome

/-- `d[k] = v`: overwrite the existing binding in place, else append the
new binding at the end, exactly as CPython dictionaries keep insertion
order. -/
def dictSet : PyDict → PyKey → PyVal → PyDict
  | [], k, v => [(k, v)]
  | (k1, v1) :: t, k, v =>
      if k1 = k then (k, v) :: t else (k1, v1) :: dictSet t k v

/-- `d.update(e)`: fold `dictSet` over the items of `e`. -/
def dictUpdate (d e : PyDict) : PyDict :=
  e.foldl (fun acc p => dictSet acc p.1 p.2) d

/-- The key a value denotes when used in `d[v]` or `v in d`: numbers and
strings are hashable, `True`/`False` equal `1`/`0` as keys, dictionaries
are unhashable. -/
def keyOfVal : PyVal → Option PyKey
  | .num q => some (.q q)
  | .str s => some (.s s)
  | .bool b => some (.q (if b then 1 else 0))
  | .dict _ => none

/-- The configuration-processing cell of the BitSplit notebook:

    kwargs = config['GENERAL']
    assert kwargs['W_BUDGET'] in config['W_ARGS'], 'given weight budget not supported'
    kwargs.update(config['W_ARGS'][kwargs['W_BUDGET']])
    kwargs['CALIB_BATCHES'] = 2

Failures (missing keys, non-dict values, the failed assertion) are the
exceptions the Python code would raise, returned as `Except.error`. -/
def processBitsplitConfig (config : PyDict) : Except String PyDict :=
  match lookup config (.s "GENERAL") with
  | some (.dict kwargs) =>
    match lookup kwargs (.s "W_BUDGET") with
    | some budget =>
      match lookup config (.s "W_ARGS") with
      | some (.dict wargs) =>
        match keyOfVal budget with
        | some bkey =>
          match lookup wargs bkey with
          | some (.dict entry) =>
              Except.ok (dictSet (dictUpdate kwargs entry)
                (.s "CALIB_BATCHES") (.num 2))
          | some _ => Except.error "TypeError: update argument is not a dict"
          | none =>
              Except.error "AssertionError: given weight budget not supported"
        | none => Except.error "TypeError: unhashable key"
      | some _ => Except.error "TypeError: argument is not a dict"
      | none => Except.error "KeyError: W_ARGS"
    | none => Except.error "KeyError: W_BUDGET"
  | some _ => Except.error "TypeError: value is not subscriptable"
  | none => Except.error "KeyError: GENERAL"

/-! ### Dictionary lemmas -/

theorem ofirst_none {α : Type} (b : Option α) : ofirst none b = b := rfl

theorem ofirst_some {α : Type} (x : α) (b : Option α) :
    ofirst (some x) b = some x := rfl

theorem ofirst_assoc {α : Type} (a b c : Option α) :
    ofirst (ofirst a b) c = ofirst a (ofirst b c) := by
  cases a <;> rfl

theorem ofirst_none_right {α : Type} (a : Option α) : ofirst a none = a := by
  cases a <;> rfl

theorem lookup_dictSet_self (d : PyDict) (k : PyKey) (v : PyVal) :
    lookup (dictSet d k v) k = some v := by
  induction d with
  | nil => simp [dictSet, lookup]
  | cons p t ih =>
    obtain ⟨k1, v1⟩ := p
    by_cases hk : k1 = k
    · simp [dictSet, lookup, hk]
    · simp [dictSet, lookup, hk, ih]

theorem lookup_dictSet_ne (d : PyDict) (k k2 : PyKey) (v : PyVal)
    (h : k2 ≠ k) : lookup (dictSet d k v) k2 = lookup d k2 := by
  induction d with
  | nil =>
    simp only [dictSet, lookup]
    rw [if_neg (fun hkk => h hkk.symm)]
  | cons p t ih =>
    obtain ⟨k1, v1⟩ := p
    by_cases hk : k1 = k
    · subst hk
      simp only [dictSet, if_pos rfl, lookup]
      rw [if_neg (fun hkk => h hkk.symm), if_neg (fun hkk => h hkk.symm)]
    · simp only [dictSet, if_neg hk, lookup]
      by_cases hk2 : k1 = k2
      · rw [if_pos hk2, if_pos hk2]
      · rw [if_neg hk2, if_neg hk2, ih]

theorem lookup_dictUpdate (d e : PyDict) (k : PyKey) :
    lookup (dictUpdate d e) k = ofirst (rlookup e k) (lookup d k) := by
  induction e generalizing d with
  | nil => rfl
  | cons p t ih =>
    obtain ⟨k1, v1⟩ := p
    show lookup (dictUpdate (dictSet d k1 v1) t) k = _
    rw [ih]
    by_cases hk : k1 = k
    · subst hk
      rw [lookup_dictSet_self]
      have hr : rlookup ((k1, v1) :: t) k1 = ofirst (rlookup t k1) (some v1) := by
        simp [rlookup]
      rw [hr, ofirst_assoc, ofirst_some]
    · rw [lookup_dictSet_ne d k1 k v1 (fun hkk => hk hkk.symm)]
      simp only [rlookup, if_neg hk, ofirst_none_right]

/-! ### The notebook scripts

Each notebook is a linear sequence of statements.  The statements relevant
to the claims (dataset construction, loader construction, model creation,
checkpoint loading, YAML parsing, configuration manipulation, compressor
construction, the pipeline call, accuracy evaluation, shell commands) are
transcribed one-for-one from the notebook code cells, in execution order;
statements with no bearing on any claim (imports, transform definitions,
print statements, device placement) are kept as `misc` entries so that the
sequence mirrors the notebooks.  Comment-only and empty cells produce no
statement. -/

/-- How the bundle of data loaders is handed to a compressor constructor:
either a variable holding a previously built mapping, or an inline
dictionary literal at the call site. -/
inductive LoadersSpec where
  | var (name : String)
  | inline (entries : List (String × String))
  deriving DecidableEq, Repr

/-- The source of the mapping given to `model.load_state_dict`: a variable,
or a `torch.load` call written inline; in both cases with the dictionary
key extracted at this use site, if any. -/
inductive WeightsSrc where
  | var (name : String) (extractKey : Option String)
  | file (path : String) (extractKey : Option String)
  deriving DecidableEq, Repr

/-- One notebook statement. -/
inductive Op where
  /-- A statement with no bearing on any claim (imports, transform
  definitions, prints, device placement, simple assignments). -/
  | misc (tag : String)
  /-- A notebook shell command (`cd`, `mkdir`, `git`). -/
  | shell (cmd : String)
  /-- A `%%writefile` cell writing a local file. -/
  | writeFile (path : String)
  /-- `target = DatasetFactory.create_dataset(name, root, split_types,
  val_fraction, ...)`. -/
  | buildDataset (target name root : String) (splitTypes : List String)
      (valFraction : Rat)
  /-- `target = DataLoader(datasetVar[datasetKey], batch_size,
  sampler=datasetVar[samplerKey], num_workers)`. -/
  | makeLoader (target datasetVar datasetKey samplerKey : String)
      (batchSize : Nat)
  /-- `target = {split: loaderVar, ...}`. -/
  | bundleLoaders (target : String) (entries : List (String × String))
  /-- `target = <factory>(arch, numClasses, ...)`: a freshly initialised
  model. -/
  | createModel (target arch : String) (numClasses : Nat)
  /-- `target = load_state_dict_from_url(url)`. -/
  | downloadWeights (target url : String)
  /-- `target = torch.load(path)[extractKey]` (or without subscript when
  `extractKey` is `none`); `pretrainedFile` is true when the file is a
  pretrained checkpoint produced outside this notebook run. -/
  | loadFromFile (target path : String) (extractKey : Option String)
      (pretrainedFile : Bool)
  /-- `modelVar.load_state_dict(src)`; `recordedResult` is the value the
  notebook recorded for this cell, when the call result was displayed. -/
  | applyStateDict (modelVar : String) (src : WeightsSrc)
      (pretrainedFile : Bool) (recordedResult : Option String)
  /-- `target = yaml.safe_load(open(path))`. -/
  | safeLoadYaml (target path : String)
  /-- `target = srcDict[key]`. -/
  | dictSelect (target srcDict key : String)
  /-- `assert valDict[valKey] in tableDict[tableKey], message`. -/
  | assertKeyIn (valDict valKey tableDict tableKey message : String)
  /-- `target.update(srcDict[srcKey][idxDict[idxKey]])`. -/
  | dictUpdateFrom (target srcDict srcKey idxDict idxKey : String)
  /-- `target[key] = value`. -/
  | dictSetKey (target key : String) (value : Nat)
  /-- `target = Algo(models..., loaders, **kwargsVar)`: construction of a
  compression-algorithm object of the external library. -/
  | newCompressor (algo target : String) (modelArgs : List String)
      (loaders : LoadersSpec) (kwargsVar : String)
  /-- `target = objVar.compress_model()` (or a bare call when `target` is
  `none`): the single entry point running the whole pipeline. -/
  | compressModel (target : Option String) (objVar : String)
  /-- Accuracy evaluation of `modelVar` on the test loader, either through
  `objVar.test(...)` or through the notebook evaluation loop;
  `viaSoftmax` is true when the loop applies softmax before argmax. -/
  | testAccuracy (objVar : Option String) (modelVar : String)
      (viaSoftmax : Bool)
  /-- A Python `try`/`except` handler.  Present in the statement language
  so that its absence from every script is expressible; no notebook cell
  contains one. -/
  | tryExcept (desc : String)
  deriving DecidableEq, Repr

/-- A notebook script: its statements in execution order. -/
abbrev Script := List Op

/-- The Factor Transfer notebook
(`experiments/distillation/Factor Transfer/FactorTransfer.ipynb`). -/
def factorTransferScript : Script :=
  [ .misc "imports",
    .misc "device selection",
    .misc "transform and target transform definitions",
    .buildDataset "cifar_dataset" "CIFAR10" "./data"
      ["train", "val", "test"] (mkRat 1 10),
    .makeLoader "train_loader" "cifar_dataset" "train_dataset"
      "train_sampler" 128,
    .makeLoader "val_loader" "cifar_dataset" "val_dataset"
      "val_sampler" 128,
    .makeLoader "test_loader" "cifar_dataset" "test_dataset"
      "test_sampler" 128,
    .bundleLoaders "dataloaders"
      [("train", "train_loader"), ("val", "val_loader"),
       ("test", "test_loader")],
    .createModel "teacher_model" "resnet50" 100,
    .createModel "student_model" "resnet18" 100,
    .misc "models to device",
    .loadFromFile "weights" "./resnet50_cifar100_pretrained.pth"
      (some "state_dict") true,
    .applyStateDict "teacher_model" (.var "weights" none) true
      (some "<All keys matched successfully>"),
    .safeLoadYaml "data_loaded" "./resnet50-resnet18.yaml",
    .newCompressor "FactorTransfer" "distillation_box"
      ["teacher_model", "student_model"] (.var "dataloaders") "data_loaded",
    .compressModel none "distillation_box",
    .applyStateDict "student_model"
      (.file "./checkpoints/{log_dir}.pth" (some "state_dict")) false none,
    .testAccuracy none "student_model" true ]

/-- The ChipNet notebook, first document of
(`experiments/pruning/chipnet/trailmet.ipynb`). -/
def chipnetScript : Script :=
  [ .shell "cd trailmet",
    .shell "git pull",
    .misc "imports",
    .misc "import yaml",
    .misc "root path assignment",
    .writeFile "experiments/chipnet/resnet50_cifar10.yaml",
    .safeLoadYaml "data_loaded" "resnet50_cifar10.yaml",
    .misc "print config",
    .createModel "model" "resnet18" 10,
    .misc "pretrained weights url assignment",
    .downloadWeights "weights"
      "https://download.pytorch.org/models/resnet18-f37072fd.pth",
    .misc "import DatasetFactory and data root assignment",
    .shell "mkdir /content/data_dir",
    .buildDataset "cifar_dataset" "CIFAR10" "/content/data_dir"
      ["train", "val", "test"] (mkRat 1 5),
    .makeLoader "train_loader" "cifar_dataset" "train_dataset"
      "train_sampler" 64,
    .makeLoader "val_loader" "cifar_dataset" "val_dataset"
      "val_sampler" 64,
    .makeLoader "test_loader" "cifar_dataset" "test_dataset"
      "test_sampler" 64,
    .misc "import ChipNet",
    .newCompressor "ChipNet" "a" ["model"]
      (.inline [("train", "train_loader"), ("val", "val_loader"),
                ("test", "test_loader")]) "data_loaded",
    .compressModel none "a",
    .misc "sum of a literal list" ]

/-- The BitSplit notebook, second document of
(`experiments/pruning/chipnet/trailmet.ipynb`). -/
def bitsplitScript : Script :=
  [ .misc "sys path append",
    .misc "imports",
    .misc "transform and target transform definitions",
    .buildDataset "cifar100_dataset" "CIFAR100" "./data"
      ["train", "val", "test"] (mkRat 1 5),
    .misc "print split sizes",
    .makeLoader "train_loader" "cifar100_dataset" "train"
      "train_sampler" 128,
    .makeLoader "val_loader" "cifar100_dataset" "val"
      "val_sampler" 128,
    .makeLoader "test_loader" "cifar100_dataset" "test"
      "test_sampler" 128,
    .bundleLoaders "dataloaders"
      [("train", "train_loader"), ("val", "val_loader"),
       ("test", "test_loader")],
    .misc "print batch counts",
    .createModel "res50_model" "resnet50" 100,
    .loadFromFile "checkpoint" "./weights/resnet50_cifar100_pretrained.pth"
      none true,
    .applyStateDict "res50_model" (.var "checkpoint" (some "state_dict"))
      true (some "<All keys matched successfully>"),
    .safeLoadYaml "config" "./bitsplit_config.yaml",
    .dictSelect "kwargs" "config" "GENERAL",
    .assertKeyIn "kwargs" "W_BUDGET" "config" "W_ARGS"
      "given weight budget not supported",
    .dictUpdateFrom "kwargs" "config" "W_ARGS" "kwargs" "W_BUDGET",
    .dictSetKey "kwargs" "CALIB_BATCHES" 2,
    .misc "display kwargs",
    .newCompressor "BitSplit" "quantizer" ["res50_model"]
      (.var "dataloaders") "kwargs",
    .misc "print test banner",
    .testAccuracy (some "quantizer") "res50_model" false,
    .compressModel (some "qmodel") "quantizer",
    .misc "print quantized test banner",
    .testAccuracy (some "quantizer") "qmodel" false ]

/-- All three experiment scripts of the repository. -/
def allScripts : List Script :=
  [factorTransferScript, chipnetScript, bitsplitScript]

/-! ### Script analysis -/

/-- Is this statement a construction of a compression-algorithm object? -/
def isCompressorNew : Op → Bool
  | .newCompressor .. => true
  | _ => false

/-- Is this statement a `compress_model()` invocation? -/
def isCompressCall : Op → Bool
  | .compressModel .. => true
  | _ => false

/-- The compression-algorithm classes a script instantiates, in order. -/
def compressorAlgos (s : Script) : List String :=
  s.filterMap fun op => match op with
    | .newCompressor algo .. => some algo
    | _ => none

/-- The model arguments of each compressor construction, in order. -/
def compressorModelArgs (s : Script) : List (List String) :=
  s.filterMap fun op => match op with
    | .newCompressor _ _ ms _ _ => some ms
    | _ => none

/-- The `**kwargs` variable of each compressor construction, in order. -/
def compressorKwargsVars (s : Script) : List String :=
  s.filterMap fun op => match op with
    | .newCompressor _ _ _ _ kw => some kw
    | _ => none

/-- The stage of the pipeline sketch a statement belongs to:
(1) dataset splits and loaders, (2) model construction, (3) loading
pretrained weights into the model, (4) parsing the configuration mapping,
(5) compressor construction, (6) the pipeline call, (7) accuracy
evaluation.  Statements outside the sketch (shell commands, imports,
prints, a weight download that is never applied, reloading a checkpoint
this very run produced) carry no stage. -/
def stageOf : Op → Option Nat
  | .buildDataset .. => some 1
  | .makeLoader .. => some 1
  | .bundleLoaders .. => some 1
  | .createModel .. => some 2
  | .loadFromFile _ _ _ pre => if pre then some 3 else none
  | .applyStateDict _ _ pre _ => if pre then some 3 else none
  | .safeLoadYaml .. => some 4
  | .dictSelect .. => some 4
  | .assertKeyIn .. => some 4
  | .dictUpdateFrom .. => some 4
  | .dictSetKey .. => some 4
  | .newCompressor .. => some 5
  | .compressModel .. => some 6
  | .testAccuracy .. => some 7
  | _ => none

/-- The sequence of pipeline stages a script passes through. -/
def stageSeq (s : Script) : List Nat :=
  s.filterMap stageOf

/-- Whether a list of stage numbers is non-decreasing, i.e. the script
never returns to an earlier stage. -/
def nondecreasing : List Nat → Bool
  | [] => true
  | [_] => true
  | a :: b :: t => a ≤ b && nondecreasing (b :: t)

/-- Does the statement itself open a network connection?  True for the
explicit URL fetch through `load_state_dict_from_url` and for `git`
shell commands; library-internal conditional downloads (torchvision
fetching a dataset that is absent on disk) happen behind
`DatasetFactory.create_dataset` and are not statements of the notebook. -/
def opensNetwork : Op → Bool
  | .downloadWeights .. => true
  | .shell cmd => cmd == "git pull"
  | _ => false

/-- Is this statement a `try`/`except` error handler? -/
def isErrorHandler : Op → Bool
  | .tryExcept _ => true
  | _ => false

/-- Is this statement an `assert` on a configuration value? -/
def isConfigAssert : Op → Bool
  | .assertKeyIn .. => true
  | _ => false

/-- Does this statement validate or transform the loaded configuration
mapping before it reaches the compressor constructor? -/
def isConfigTransform : Op → Bool
  | .dictSelect .. => true
  | .assertKeyIn .. => true
  | .dictUpdateFrom .. => true
  | .dictSetKey .. => true
  | _ => false

/-- The targets of the `yaml.safe_load` statements of a script. -/
def yamlTargets (s : Script) : List String :=
  s.filterMap fun op => match op with
    | .safeLoadYaml t _ => some t
    | _ => none

/-- A script passes its configuration to the compressor untouched when it
parses YAML exactly once, constructs exactly one compressor whose
`**kwargs` variable is the variable `yaml.safe_load` bound, and contains
no statement validating or transforming a configuration mapping. -/
def passesLoadedConfigDirectly (s : Script) : Bool :=
  match yamlTargets s, compressorKwargsVars s with
  | [t], [v] => t == v && s.countP isConfigTransform == 0
  | _, _ => false

/-- Does a statement read the given variable? -/
def usesVar (op : Op) (v : String) : Bool :=
  match op with
  | .makeLoader _ dv _ _ _ => dv == v
  | .bundleLoaders _ entries => entries.any (fun p => p.2 == v)
  | .applyStateDict m src _ _ =>
      m == v || (match src with | .var n _ => n == v | .file _ _ => false)
  | .dictSelect _ src _ => src == v
  | .assertKeyIn vd _ td _ _ => vd == v || td == v
  | .dictUpdateFrom t sd _ id2 _ => t == v || sd == v || id2 == v
  | .dictSetKey t _ _ => t == v
  | .newCompressor _ _ ms ls kw =>
      ms.contains v || kw == v ||
      (match ls with
       | .var n => n == v
       | .inline entries => entries.any (fun p => p.2 == v))
  | .compressModel _ obj => obj == v
  | .testAccuracy obj m _ => obj == some v || m == v
  | _ => false

/-- What a model variable holds: parameters fresh from the model factory,
or parameters loaded from a checkpoint. -/
inductive ParamState where
  | freshInit (arch : String)
  | fromCheckpoint (src : String)
  deriving DecidableEq, Repr

/-- First-match lookup in a variable environment. -/
def lookupPS : List (String × ParamState) → String → Option ParamState
  | [], _ => none
  | (k, v) :: t, x => if k = x then some v else lookupPS t x

/-- One step of the model-parameter state: model construction binds fresh
parameters, `load_state_dict` replaces the parameters of its target;
every other statement leaves model parameters unchanged (a
`load_state_dict_from_url` call binds a plain state-dict variable and
touches no model). -/
def stepParams (env : List (String × ParamState)) : Op →
    List (String × ParamState)
  | .createModel t arch _ => (t, .freshInit arch) :: env
  | .applyStateDict m src _ _ =>
      (m, .fromCheckpoint
        (match src with | .var n _ => n | .file p _ => p)) :: env
  | _ => env

/-- The parameters each model variable holds just before the first
compressor construction of the script. -/
def paramsBeforeCompressor (s : Script) (v : String) : Option ParamState :=
  lookupPS ((s.takeWhile (fun op => !isCompressorNew op)).foldl
    stepParams []) v

/-- The dictionary key under which each `load_state_dict` call of the
script reads the tensors out of a file checkpoint, resolving a state-dict
variable back to the `torch.load` statement that bound it. -/
def checkpointExtractKeys (s : Script) : List (Option String) :=
  s.filterMap fun op => match op with
    | .applyStateDict _ (.file _ k) _ _ => some k
    | .applyStateDict _ (.var n k) _ _ =>
        some (match k with
          | some x => some x
          | none =>
            match s.filterMap (fun o => match o with
              | .loadFromFile t _ ek _ => if t = n then some ek else none
              | _ => none) with
            | [ek] => ek
            | _ => none)
    | _ => none

/-- The recorded result of each `load_state_dict` call of the script, when
the notebook displayed one. -/
def recordedLoadResults (s : Script) : List (Option String) :=
  s.filterMap fun op => match op with
    | .applyStateDict _ _ _ r => some r
    | _ => none

/-- Strict `load_state_dict` over key sets: it succeeds exactly when the
checkpoint keys and the model parameter keys coincide, and raises
otherwise (PyTorch default `strict=True`). -/
def loadStateDictStrict (modelKeys ckptKeys : List String) :
    Except String Unit :=
  if (∀ x ∈ modelKeys, x ∈ ckptKeys) ∧ (∀ x ∈ ckptKeys, x ∈ modelKeys) then
    Except.ok ()
  else
    Except.error "RuntimeError: Error(s) in loading state_dict"

/-- Summary of each `DatasetFactory.create_dataset` call: dataset name,
split types and validation fraction, in order. -/
def datasetSummaries (s : Script) : List (String × List String × Rat) :=
  s.filterMap fun op => match op with
    | .buildDataset _ name _ splits vf => some (name, splits, vf)
    | _ => none

/-- Summary of each `DataLoader` construction: target variable, dataset
key and batch size, in order. -/
def loaderSummaries (s : Script) : List (String × String × Nat) :=
  s.filterMap fun op => match op with
    | .makeLoader t _ dk _ b => some (t, dk, b)
    | _ => none

/-- The loader mapping each compressor construction receives, with an
inline dictionary taken as written and a variable resolved to the unique
bundling statement that built it. -/
def compressorLoaderEntries (s : Script) : List (List (String × String)) :=
  s.filterMap fun op => match op with
    | .newCompressor _ _ _ ls _ =>
        some (match ls with
          | .inline e => e
          | .var n =>
            match s.filterMap (fun o => match o with
              | .bundleLoaders t e => if t = n then some e else none
              | _ => none) with
            | [e] => e
            | _ => [])
    | _ => none

/-! ### The Factor Transfer test-set evaluation arithmetic

The evaluation cell of the Factor Transfer notebook computes
`y_preds.softmax(1)` and then takes `argmax(1)` of each row before
comparing against the labels with `accuracy_score`.  Row softmax and
first-occurrence row argmax (the `numpy.argmax` tie rule) are embedded
over the reals. -/

/-- Index of the first maximal entry of a list (`numpy.argmax` semantics;
`0` on the empty list). -/
def argmaxIdx {α : Type} [LinearOrder α] : List α → Nat
  | [] => 0
  | x :: xs =>
      if (x : WithBot α) < xs.maximum then argmaxIdx xs + 1 else 0

/-- Softmax of a row of logits: each entry is its exponential divided by
the sum of the exponentials of the row. -/
noncomputable def softmax (l : List Real) : List Real :=
  l.map fun x => Real.exp x / (l.map Real.exp).sum

/-- `sklearn.metrics.accuracy_score`: the fraction of positions where the
prediction equals the label. -/
def accuracy_score (yTrue yPred : List Nat) : Rat :=
  (((yTrue.zip yPred).countP fun p => p.1 == p.2 : Nat) : Rat) /
    ((yTrue.length : Nat) : Rat)

theorem maximum_map_mono {α β : Type} [LinearOrder α] [LinearOrder β]
    {f : α → β} (hf : Monotone f) (l : List α) :
    (l.map f).maximum = WithBot.map f l.maximum := by
  induction l with
  | nil => simp [List.maximum_nil]
  | cons x xs ih =>
    rw [List.map_cons, List.maximum_cons, List.maximum_cons, ih]
    cases hm : xs.maximum with
    | bot =>
      rw [WithBot.map_bot]
      rw [max_eq_left (OrderBot.bot_le _), max_eq_left (OrderBot.bot_le _),
        WithBot.map_coe]
    | coe m =>
      rw [WithBot.map_coe, ← WithBot.coe_max, ← WithBot.coe_max,
        WithBot.map_coe, hf.map_max]

theorem lt_maximum_map_iff {α β : Type} [LinearOrder α] [LinearOrder β]
    {f : α → β} (hf : StrictMono f) (x : α) (xs : List α) :
    ((f x : WithBot β) < (xs.map f).maximum) ↔
      ((x : WithBot α) < xs.maximum) := by
  rw [maximum_map_mono hf.monotone]
  cases hm : xs.maximum with
  | bot =>
    rw [WithBot.map_bot]
    exact iff_of_false (WithBot.not_lt_bot _) (WithBot.not_lt_bot _)
  | coe m =>
    rw [WithBot.map_coe, WithBot.coe_lt_coe, WithBot.coe_lt_coe]
    exact hf.lt_iff_lt

theorem argmaxIdx_map {α β : Type} [LinearOrder α] [LinearOrder β]
    {f : α → β} (hf : StrictMono f) (l : List α) :
    argmaxIdx (l.map f) = argmaxIdx l := by
  induction l with
  | nil => rfl
  | cons x xs ih =>
    rw [List.map_cons]
    show (if (f x : WithBot β) < (xs.map f).maximum then
        argmaxIdx (xs.map f) + 1 else 0) = _
    by_cases h : (x : WithBot α) < xs.maximum
    · rw [if_pos ((lt_maximum_map_iff hf x xs).2 h), ih]
      show _ = argmaxIdx (x :: xs)
      rw [show argmaxIdx (x :: xs) = if (x : WithBot α) < xs.maximum then
        argmaxIdx xs + 1 else 0 from rfl, if_pos h]
    · rw [if_neg (fun hc => h ((lt_maximum_map_iff hf x xs).1 hc))]
      show _ = argmaxIdx (x :: xs)
      rw [show argmaxIdx (x :: xs) = if (x : WithBot α) < xs.maximum then
        argmaxIdx xs + 1 else 0 from rfl, if_neg h]

theorem argmaxIdx_softmax (l : List Real) :
    argmaxIdx (softmax l) = argmaxIdx l := by
  cases l with
  | nil => rfl
  | cons x xs =>
    have hS : 0 < ((x :: xs).map Real.exp).sum := by
      apply List.sum_pos
      · intro y hy
        simp only [List.mem_map] at hy
        obtain ⟨z, _, rfl⟩ := hy
        exact Real.exp_pos z
      · simp
    have hg : StrictMono
        (fun t : Real => Real.exp t / ((x :: xs).map Real.exp).sum) := by
      intro a b hab
      exact (div_lt_div_iff_of_pos_right hS).2 (Real.exp_lt_exp.2 hab)
    simpa [softmax] using argmaxIdx_map hg (x :: xs)

/-- Is this statement the notebook evaluation loop that applies softmax
before argmax? -/
def isSoftmaxEval : Op → Bool
  | .testAccuracy _ _ viaSm => viaSm
  | _ => false

/-- Is this statement a `load_state_dict_from_url` download? -/
def isDownloadOp : Op → Bool
  | .downloadWeights .. => true
  | _ => false

/-! ### Sample configurations for the BitSplit processing cell -/

/-- The `GENERAL` section of a sample BitSplit configuration, with a
`CALIB_BATCHES` value that differs from `2`. -/
def sampleGeneral : PyDict :=
  [ (.s "ARCH", .str "ResNet50"),
    (.s "DATASET", .str "CIFAR100"),
    (.s "W_BUDGET", .num (mkRat 1 8)),
    (.s "CALIB_BATCHES", .num 16) ]

/-- The `W_ARGS` entry the sample configuration selects. -/
def sampleEntry : PyDict :=
  [(.s "W_BITS", .num 4)]

/-- The `W_ARGS` table of the sample configuration. -/
def sampleWargs : PyDict :=
  [(.q (mkRat 1 8), .dict sampleEntry)]

/-- A sample BitSplit configuration whose budget is supported. -/
def sampleBitsplitConfig : PyDict :=
  [ (.s "GENERAL", .dict sampleGeneral),
    (.s "W_ARGS", .dict sampleWargs) ]

/-- A sample BitSplit configuration whose `W_BUDGET` (`0.3`) is not a key
of `W_ARGS`, so the assertion fails. -/
def unsupportedBudgetConfig : PyDict :=
  [ (.s "GENERAL", .dict [(.s "W_BUDGET", .num (mkRat 3 10))]),
    (.s "W_ARGS", .dict sampleWargs) ]

/-! ### The claims -/

/-- Claim C1: each experiment script constructs exactly one
compression-algorithm object of the external library (FactorTransfer with
teacher and student models, ChipNet with one model, BitSplit with one
model) and invokes `compress_model()` exactly once. -/
theorem claim_C1 :
    (factorTransferScript.countP isCompressorNew = 1 ∧
     factorTransferScript.countP isCompressCall = 1 ∧
     compressorAlgos factorTransferScript = ["FactorTransfer"] ∧
     compressorModelArgs factorTransferScript =
       [["teacher_model", "student_model"]]) ∧
    (chipnetScript.countP isCompressorNew = 1 ∧
     chipnetScript.countP isCompressCall = 1 ∧
     compressorAlgos chipnetScript = ["ChipNet"] ∧
     compressorModelArgs chipnetScript = [["model"]]) ∧
    (bitsplitScript.countP isCompressorNew = 1 ∧
     bitsplitScript.countP isCompressCall = 1 ∧
     compressorAlgos bitsplitScript = ["BitSplit"] ∧
     compressorModelArgs bitsplitScript = [["res50_model"]]) := by
  decide

/-- Claim C2, as stated, is false: the ChipNet notebook parses its
configuration before constructing the model, the dataset and the loaders,
so its stage sequence is not non-decreasing. -/
theorem claim_C2_counterexample :
    ¬ (allScripts.all (fun s => nondecreasing (stageSeq s)) = true) := by
  decide

/-- Claim C2, amended: the Factor Transfer notebook follows the linear
order (1) dataset and loaders, (2) models, (3) pretrained weights,
(4) configuration, (5) compressor, (6) pipeline call, (7) evaluation; the
ChipNet notebook instead parses the configuration first, then builds the
model, then the dataset and loaders, never loads weights into the model
and never evaluates accuracy; the BitSplit notebook follows the order
except that it evaluates the accuracy of the pretrained model between the
compressor construction and the pipeline call. -/
theorem claim_C2 :
    nondecreasing (stageSeq factorTransferScript) = true ∧
    stageSeq factorTransferScript = [1, 1, 1, 1, 1, 2, 2, 3, 3, 4, 5, 6, 7] ∧
    stageSeq chipnetScript = [4, 2, 1, 1, 1, 1, 5, 6] ∧
    stageSeq bitsplitScript =
      [1, 1, 1, 1, 1, 2, 3, 3, 4, 4, 4, 4, 4, 5, 7, 6, 7] := by
  decide

/-- Claim C3, as stated, is false: the BitSplit notebook does not pass the
`yaml.safe_load` result untouched — it selects the `GENERAL` section,
asserts the budget, merges a `W_ARGS` entry in and overrides
`CALIB_BATCHES` before unpacking `kwargs` into the constructor. -/
theorem claim_C3_counterexample :
    ¬ (allScripts.all passesLoadedConfigDirectly = true) := by
  decide

/-- Claim C3, amended: the Factor Transfer and ChipNet notebooks apply
`yaml.safe_load` once and pass the resulting mapping, unpacked with `**`
and untransformed, to the constructor; the BitSplit notebook also parses
YAML once, but passes the derived `kwargs` mapping after exactly four
transformation statements: selecting `GENERAL`, asserting the budget,
merging the selected `W_ARGS` entry, and setting `CALIB_BATCHES` to 2. -/
theorem claim_C3 :
    passesLoadedConfigDirectly factorTransferScript = true ∧
    passesLoadedConfigDirectly chipnetScript = true ∧
    yamlTargets bitsplitScript = ["config"] ∧
    compressorKwargsVars bitsplitScript = ["kwargs"] ∧
    bitsplitScript.filter isConfigTransform =
      [ .dictSelect "kwargs" "config" "GENERAL",
        .assertKeyIn "kwargs" "W_BUDGET" "config" "W_ARGS"
          "given weight budget not supported",
        .dictUpdateFrom "kwargs" "config" "W_ARGS" "kwargs" "W_BUDGET",
        .dictSetKey "kwargs" "CALIB_BATCHES" 2 ] := by
  decide

/-- Claim C4: no notebook contains a `try`/`except` handler, so every
failure propagates uncaught; in particular the BitSplit notebook has
exactly one configuration assertion, and on a configuration whose
`W_BUDGET` is not among the `W_ARGS` keys the processing raises the
assertion error uncaught. -/
theorem claim_C4 :
    allScripts.all (fun s => s.countP isErrorHandler == 0) = true ∧
    bitsplitScript.countP isConfigAssert = 1 ∧
    processBitsplitConfig unsupportedBudgetConfig =
      Except.error "AssertionError: given weight budget not supported" := by
  refine ⟨by decide, by decide, by rfl⟩

/-- Claim C5, as stated, is false: the ChipNet notebook opens network
connections — it fetches pretrained weights over HTTPS through
`load_state_dict_from_url` and runs `git pull`. -/
theorem claim_C5_counterexample :
    ¬ (allScripts.all (fun s => s.all (fun op => !opensNetwork op)) = true) := by
  decide

/-- Claim C5, amended: the Factor Transfer and BitSplit notebooks contain
no statement that opens a network connection; the ChipNet notebook
contains exactly two — `git pull` and the `load_state_dict_from_url`
fetch of `resnet18-f37072fd.pth`.  No state-persistence or network
protocol is defined by the repository itself. -/
theorem claim_C5 :
    factorTransferScript.all (fun op => !opensNetwork op) = true ∧
    bitsplitScript.all (fun op => !opensNetwork op) = true ∧
    chipnetScript.filter opensNetwork =
      [ .shell "git pull",
        .downloadWeights "weights"
          "https://download.pytorch.org/models/resnet18-f37072fd.pth" ] := by
  decide

/-- Claim C6: every checkpoint a notebook loads from a file is read
through its `state_dict` entry (two such loads in Factor Transfer, none
in ChipNet, one in BitSplit), the two loads whose result the notebooks
display are recorded as having matched all keys, and under the default
strict semantics `load_state_dict` succeeds exactly when the checkpoint
keys coincide with the model parameter keys. -/
theorem claim_C6 :
    checkpointExtractKeys factorTransferScript =
      [some "state_dict", some "state_dict"] ∧
    checkpointExtractKeys chipnetScript = [] ∧
    checkpointExtractKeys bitsplitScript = [some "state_dict"] ∧
    recordedLoadResults factorTransferScript =
      [some "<All keys matched successfully>", none] ∧
    recordedLoadResults bitsplitScript =
      [some "<All keys matched successfully>"] ∧
    (∀ modelKeys ckptKeys : List String,
      loadStateDictStrict modelKeys ckptKeys = Except.ok () ↔
        ((∀ x ∈ modelKeys, x ∈ ckptKeys) ∧ (∀ x ∈ ckptKeys, x ∈ modelKeys))) := by
  refine ⟨by decide, by decide, by decide, by decide, by decide,
    fun modelKeys ckptKeys => ?_⟩
  unfold loadStateDictStrict
  split
  next h => exact iff_of_true rfl h
  next h => exact iff_of_false (by simp) h

/-- Claim C7: every notebook builds its dataset through
`DatasetFactory.create_dataset` with split types exactly
`train`, `val`, `test` and a validation fraction strictly between 0
and 1, builds exactly one loader per split with one fixed batch size, and
hands the compressor a mapping with exactly the keys `train`, `val`,
`test` bound to those three loaders. -/
theorem claim_C7 :
    (datasetSummaries factorTransferScript =
       [("CIFAR10", ["train", "val", "test"], mkRat 1 10)] ∧
     0 < mkRat 1 10 ∧ mkRat 1 10 < 1 ∧
     loaderSummaries factorTransferScript =
       [("train_loader", "train_dataset", 128),
        ("val_loader", "val_dataset", 128),
        ("test_loader", "test_dataset", 128)] ∧
     compressorLoaderEntries factorTransferScript =
       [[("train", "train_loader"), ("val", "val_loader"),
         ("test", "test_loader")]]) ∧
    (datasetSummaries chipnetScript =
       [("CIFAR10", ["train", "val", "test"], mkRat 1 5)] ∧
     0 < mkRat 1 5 ∧ mkRat 1 5 < 1 ∧
     loaderSummaries chipnetScript =
       [("train_loader", "train_dataset", 64),
        ("val_loader", "val_dataset", 64),
        ("test_loader", "test_dataset", 64)] ∧
     compressorLoaderEntries chipnetScript =
       [[("train", "train_loader"), ("val", "val_loader"),
         ("test", "test_loader")]]) ∧
    (datasetSummaries bitsplitScript =
       [("CIFAR100", ["train", "val", "test"], mkRat 1 5)] ∧
     loaderSummaries bitsplitScript =
       [("train_loader", "train", 128),
        ("val_loader", "val", 128),
        ("test_loader", "test", 128)] ∧
     compressorLoaderEntries bitsplitScript =
       [[("train", "train_loader"), ("val", "val_loader"),
         ("test", "test_loader")]]) := by
  decide

/-- Claim C8: in the ChipNet notebook the downloaded state dict is bound
to `weights` and never read again by any later statement, no
`load_state_dict` ever targets `model`, and at the `ChipNet` construction
the variable `model` still holds the freshly initialised `resnet18`
parameters produced by `ModelsFactory.create_model`. -/
theorem claim_C8 :
    chipnetScript.countP isDownloadOp = 1 ∧
    ((chipnetScript.dropWhile (fun op => !isDownloadOp op)).tail.all
      (fun op => !usesVar op "weights")) = true ∧
    paramsBeforeCompressor chipnetScript "model" =
      some (.freshInit "resnet18") ∧
    compressorModelArgs chipnetScript = [["model"]] := by
  decide

/-- Claim C9: for every configuration that reaches the `BitSplit`
constructor (the `GENERAL` section is a mapping holding a `W_BUDGET`, the
budget is a key of the `W_ARGS` table and selects a mapping), the
processing returns `GENERAL` updated by the selected entry — every key of
the entry overwrites a same-named `GENERAL` key, `dict.update`
semantics — and `CALIB_BATCHES` is then set to `2` unconditionally,
whatever value the file gave it. -/
theorem claim_C9 (config kwargs wargs entry : PyDict) (budget : PyVal)
    (bkey : PyKey)
    (h1 : lookup config (.s "GENERAL") = some (.dict kwargs))
    (h2 : lookup kwargs (.s "W_BUDGET") = some budget)
    (h3 : lookup config (.s "W_ARGS") = some (.dict wargs))
    (h4 : keyOfVal budget = some bkey)
    (h5 : lookup wargs bkey = some (.dict entry)) :
    processBitsplitConfig config =
      Except.ok (dictSet (dictUpdate kwargs entry)
        (.s "CALIB_BATCHES") (.num 2)) ∧
    lookup (dictSet (dictUpdate kwargs entry) (.s "CALIB_BATCHES")
      (.num 2)) (.s "CALIB_BATCHES") = some (.num 2) ∧
    (∀ (k : PyKey) (v : PyVal), k ≠ .s "CALIB_BATCHES" →
      rlookup entry k = some v →
      lookup (dictSet (dictUpdate kwargs entry) (.s "CALIB_BATCHES")
        (.num 2)) k = some v) := by
  refine ⟨?_, lookup_dictSet_self _ _ _, fun k v hk hrv => ?_⟩
  · simp only [processBitsplitConfig, h1, h2, h3, h4, h5]
  · rw [lookup_dictSet_ne _ _ _ _ hk, lookup_dictUpdate, hrv, ofirst_some]

/-- Witness for claim C9: a concrete configuration whose `GENERAL`
section carries `CALIB_BATCHES = 16`; the processing succeeds and the
constructor nevertheless receives `CALIB_BATCHES = 2`. -/
theorem claim_C9_witness :
    lookup sampleBitsplitConfig (.s "GENERAL") = some (.dict sampleGeneral) ∧
    lookup sampleGeneral (.s "CALIB_BATCHES") = some (.num 16) ∧
    processBitsplitConfig sampleBitsplitConfig =
      Except.ok (dictSet (dictUpdate sampleGeneral sampleEntry)
        (.s "CALIB_BATCHES") (.num 2)) ∧
    lookup (dictSet (dictUpdate sampleGeneral sampleEntry)
      (.s "CALIB_BATCHES") (.num 2)) (.s "CALIB_BATCHES") =
      some (.num 2) := by
  have h := claim_C9 sampleBitsplitConfig sampleGeneral sampleWargs
    sampleEntry (.num (mkRat 1 8)) (.q (mkRat 1 8)) rfl rfl rfl rfl rfl
  exact ⟨rfl, rfl, h.1, h.2.1⟩

/-- Claim C10: on every row of logits the argmax of the softmax equals
the argmax of the raw logits, the accuracy score over the test
predictions is therefore identical with or without the softmax call, and
the Factor Transfer script contains exactly one evaluation loop applying
softmax before argmax. -/
theorem claim_C10 :
    (∀ row : List Real, argmaxIdx (softmax row) = argmaxIdx row) ∧
    (∀ (labels : List Nat) (rows : List (List Real)),
      accuracy_score labels (rows.map fun r => argmaxIdx (softmax r)) =
        accuracy_score labels (rows.map fun r => argmaxIdx r)) ∧
    factorTransferScript.countP isSoftmaxEval = 1 := by
  refine ⟨argmaxIdx_softmax, fun labels rows => ?_, by decide⟩
  have h : rows.map (fun r => argmaxIdx (softmax r)) =
      rows.map fun r => argmaxIdx r :=
    List.map_congr_left (fun r _ => argmaxIdx_softmax r)
  rw [h]

end Trailmet
